import Mathlib

/-
Verification of the natural-language specification of
src/developerbox_spi.c (flashrom Developerbox bit-bang SPI driver)
against a shallow embedding of the code in Lean 4.

The embedding models:
  * the CP210x latch write/read vendor control transfers
    (cp210x_gpio_set / cp210x_gpio_get),
  * the five bit-bang pin primitives,
  * the USB device selection loop (get_device_by_vid_pid_serial),
    with an explicit trace of opened/closed devices and list frees,
  * the initialization routine (developerbox_spi_init), with an
    explicit trace of teardown/registration events.
-/

set_option maxHeartbeats 1000000

/-! ## Constants from the source -/

/-- Bit position of the SPI clock pin in the GPIO latch (source line 47). -/
def DEVELOPERBOX_SPI_SCK : Nat := 0

/-- Bit position of the SPI chip-select pin in the GPIO latch (source line 48). -/
def DEVELOPERBOX_SPI_CS : Nat := 1

/-- Bit position of the SPI MISO (data-in) pin in the GPIO latch (source line 49). -/
def DEVELOPERBOX_SPI_MISO : Nat := 2

/-- Bit position of the SPI MOSI (data-out) pin in the GPIO latch (source line 50). -/
def DEVELOPERBOX_SPI_MOSI : Nat := 3

/-- Host-to-device vendor request type (source line 53). -/
def REQTYPE_HOST_TO_DEVICE : Nat := 0x40

/-- Device-to-host vendor request type (source line 54). -/
def REQTYPE_DEVICE_TO_HOST : Nat := 0xc0

/-- Vendor-specific request code (source line 57). -/
def CP210X_VENDOR_SPECIFIC : Nat := 0xFF

/-- Write-latch selector, passed as the wValue field (source line 60). -/
def CP210X_WRITE_LATCH : Nat := 0x37E1

/-- Read-latch selector, passed as the wValue field (source line 61). -/
def CP210X_READ_LATCH : Nat := 0x00C2

/-- Entry of the supported-device table (struct dev_entry). -/
structure dev_entry where
  vendor_id : Nat
  device_id : Nat
  vendor_name : String
  device_name : String
deriving DecidableEq

/-- Supported-device table devs_developerbox (source lines 63-66). -/
def devs_developerbox : List dev_entry :=
  [⟨0x10C4, 0xEA60, "Silicon Labs", "CP2102N USB to UART Bridge Controller"⟩]

/-! ## Latch register I/O -/

/-- Argument record of one libusb_control_transfer call, in libusb's
argument order: bmRequestType, bRequest, wValue, wIndex, wLength. -/
structure ControlTransfer where
  bmRequestType : Nat
  bRequest : Nat
  wValue : Nat
  wIndex : Nat
  wLength : Nat
deriving DecidableEq

/-- Request word built by cp210x_gpio_set (source line 92):
gpio = ((val & 0xf) << 8) | (mask & 0xf). -/
def cp210x_gpio_set_word (val mask : Nat) : Nat :=
  ((val &&& 0xf) <<< 8) ||| (mask &&& 0xf)

/-- Control transfer issued by cp210x_gpio_set (source lines 95-97):
libusb_control_transfer(handle, REQTYPE_HOST_TO_DEVICE,
CP210X_VENDOR_SPECIFIC, CP210X_WRITE_LATCH, gpio, NULL, 0, 0). -/
def cp210x_gpio_set_transfer (val mask : Nat) : ControlTransfer :=
  ⟨REQTYPE_HOST_TO_DEVICE, CP210X_VENDOR_SPECIFIC, CP210X_WRITE_LATCH,
   cp210x_gpio_set_word val mask, 0⟩

/-- Value nibble of a latch write: the high byte of the packed request word. -/
def ControlTransfer.valueNibble (t : ControlTransfer) : Nat := t.wIndex >>> 8

/-- Mask nibble of a latch write: the low nibble of the packed request word. -/
def ControlTransfer.maskNibble (t : ControlTransfer) : Nat := t.wIndex &&& 0xf

/-- Result of cp210x_gpio_get (source lines 71-85).  The argument models
the outcome of the device-to-host transfer: none is a transport failure
(res < 0), some b is a success that stored byte b in the uint8_t gpio.
On failure the function logs and returns 0. -/
def cp210x_gpio_get (res : Option Nat) : Nat :=
  match res with
  | none => 0
  | some gpio => gpio % 256

/-! ## Bit-bang pin primitives.  Each set primitive is modelled as the
list of control transfers it issues (each calls cp210x_gpio_set once). -/

/-- cp210x_bitbang_set_cs (source lines 102-105). -/
def cp210x_bitbang_set_cs (val : Nat) : List ControlTransfer :=
  [cp210x_gpio_set_transfer (val <<< DEVELOPERBOX_SPI_CS) (1 <<< DEVELOPERBOX_SPI_CS)]

/-- cp210x_bitbang_set_sck (source lines 107-110). -/
def cp210x_bitbang_set_sck (val : Nat) : List ControlTransfer :=
  [cp210x_gpio_set_transfer (val <<< DEVELOPERBOX_SPI_SCK) (1 <<< DEVELOPERBOX_SPI_SCK)]

/-- cp210x_bitbang_set_mosi (source lines 112-115). -/
def cp210x_bitbang_set_mosi (val : Nat) : List ControlTransfer :=
  [cp210x_gpio_set_transfer (val <<< DEVELOPERBOX_SPI_MOSI) (1 <<< DEVELOPERBOX_SPI_MOSI)]

/-- cp210x_bitbang_get_miso (source lines 117-120):
return !!(cp210x_gpio_get() & (1 << DEVELOPERBOX_SPI_MISO)). -/
def cp210x_bitbang_get_miso (res : Option Nat) : Bool :=
  cp210x_gpio_get res &&& (1 <<< DEVELOPERBOX_SPI_MISO) != 0

/-- cp210x_bitbang_set_sck_set_mosi (source lines 121-125): one single
cp210x_gpio_set call covering both pins. -/
def cp210x_bitbang_set_sck_set_mosi (sck mosi : Nat) : List ControlTransfer :=
  [cp210x_gpio_set_transfer
     (sck <<< DEVELOPERBOX_SPI_SCK ||| mosi <<< DEVELOPERBOX_SPI_MOSI)
     (1 <<< DEVELOPERBOX_SPI_SCK ||| 1 <<< DEVELOPERBOX_SPI_MOSI)]

/-! ## Device selection (get_device_by_vid_pid_serial, source lines 136-192) -/

/-- C strncmp on NUL-terminated byte strings, modelled on byte lists
(the terminating NUL is the end of the list), with the length bound as
fuel.  Used at source line 180: strncmp(serialno, myserial, strlen(serialno)). -/
def strncmp : List Nat → List Nat → Nat → Int
  | _, _, 0 => 0
  | a, b, n + 1 =>
    if a.headD 0 = b.headD 0 then
      if a.headD 0 = 0 then 0
      else strncmp a.tail b.tail n
    else (a.headD 0 : Int) - (b.headD 0 : Int)

/-- Serial test of source line 180: the candidate passes when
strncmp(serialno, myserial, strlen(serialno)) == 0. -/
def serialCheckPasses (fs s : List Nat) : Bool :=
  strncmp fs s fs.length == 0

/-- Spec-language predicate, for comparison with the source's test:
startsWithBytes f s is true when s starts with f byte-for-byte. -/
def startsWithBytes : List Nat → List Nat → Bool
  | [], _ => true
  | _ :: _, [] => false
  | c :: f, d :: s => c == d && startsWithBytes f s

/-- One enumerated USB candidate, with the outcomes of the fallible
per-candidate library calls: descOk is whether
libusb_get_device_descriptor succeeds, openOk whether libusb_open
succeeds, serialOk whether libusb_get_string_descriptor_ascii succeeds,
and serial the (at most 64 byte) serial string it reads. -/
structure USBDevice where
  descOk : Bool
  idVendor : Nat
  idProduct : Nat
  openOk : Bool
  serialOk : Bool
  serial : List Nat
deriving DecidableEq

/-- Candidate survives the loop up to the libusb_open call: the
descriptor read succeeded and the id test of source line 157 did not
skip it — the source skips when (idVendor != vid) && (idProduct != pid). -/
def candTriesOpen (vid pid : Nat) (d : USBDevice) : Bool :=
  d.descOk && !((d.idVendor != vid) && (d.idProduct != pid))

/-- Candidate is actually opened: it reaches libusb_open and the open
succeeds (source lines 164-168). -/
def candOpens (vid pid : Nat) (d : USBDevice) : Bool :=
  candTriesOpen vid pid d && d.openOk

/-- Candidate passes every check of the loop body and is returned:
opened, and when a serial filter is set (source lines 170-184) the
serial read succeeded and the strncmp test passed. -/
def candAccepts (vid pid : Nat) (f : Option (List Nat)) (d : USBDevice) : Bool :=
  candOpens vid pid d &&
    match f with
    | none => true
    | some fs => d.serialOk && serialCheckPasses fs d.serial

/-- Trace of one run of the selection loop: the index of the device
whose handle is returned (none when the loop exhausts the list), the
indices opened by libusb_open in order, the indices closed again by
libusb_close, and the number of libusb_free_device_list calls. -/
structure SelectTrace where
  handle : Option Nat
  opened : List Nat
  closed : List Nat
  freeCount : Nat
deriving DecidableEq

/-- Loop of source lines 146-191, from index i on: a candidate that
passes all checks frees the list and returns its handle; a candidate
that was opened but fails the serial check is closed and skipped; other
failures skip without opening; an exhausted list is freed and NULL
returned. -/
def selectFrom (vid pid : Nat) (f : Option (List Nat)) : Nat → List USBDevice → SelectTrace
  | _, [] => ⟨none, [], [], 1⟩
  | i, d :: rest =>
    if candAccepts vid pid f d then
      ⟨some i, [i], [], 1⟩
    else if candOpens vid pid d then
      let t := selectFrom vid pid f (i + 1) rest
      ⟨t.handle, i :: t.opened, i :: t.closed, t.freeCount⟩
    else
      selectFrom vid pid f (i + 1) rest

/-- get_device_by_vid_pid_serial (source lines 136-192).  The devices
argument models the outcome of libusb_get_device_list: none is a
failure (count < 0, return NULL with no free), some devs the
successfully acquired enumeration list. -/
def get_device_by_vid_pid_serial (vid pid : Nat) (f : Option (List Nat)) :
    Option (List USBDevice) → SelectTrace
  | none => ⟨none, [], [], 0⟩
  | some devs => selectFrom vid pid f 0 devs

/-- Spec-language selector: index of the first candidate, in
enumeration order, that passes all checks. -/
def firstAccepted (vid pid : Nat) (f : Option (List Nat)) : List USBDevice → Option Nat
  | [] => none
  | d :: rest =>
    if candAccepts vid pid f d then some 0
    else (firstAccepted vid pid f rest).map (fun k => k + 1)

/-! ## Initialization (developerbox_spi_init, source lines 202-235) -/

/-- Environment of one developerbox_spi_init run: the optional serial
parameter, whether libusb_init produced a context, the enumeration
outcome fed to get_device_by_vid_pid_serial, and whether
register_shutdown and register_spi_bitbang_master succeed. -/
structure InitEnv where
  serialParam : Option (List Nat)
  usbInitOk : Bool
  devices : Option (List USBDevice)
  regShutdownOk : Bool
  regSpiOk : Bool
deriving DecidableEq

/-- Observable calls made by developerbox_spi_init after the device
lookup: libusb_exit on the transport context, the register_shutdown
call, and the register_spi_bitbang_master call. -/
inductive InitEvent where
  | usbExit
  | regShutdown
  | regSpi
deriving DecidableEq

/-- Result of developerbox_spi_init: the return value, the events in
call order, and whether libusb_close was called on the device handle
during initialization. -/
structure InitResult where
  ret : Nat
  events : List InitEvent
  handleClosed : Bool
deriving DecidableEq

/-- developerbox_spi_init (source lines 202-235). -/
def developerbox_spi_init (env : InitEnv) : InitResult :=
  if !env.usbInitOk then
    ⟨1, [], false⟩
  else
    let vid := (devs_developerbox.headD ⟨0, 0, "", ""⟩).vendor_id
    let pid := (devs_developerbox.headD ⟨0, 0, "", ""⟩).device_id
    let tr := get_device_by_vid_pid_serial vid pid env.serialParam env.devices
    if tr.handle.isNone then
      ⟨1, [InitEvent.usbExit], false⟩
    else if !env.regShutdownOk then
      ⟨1, [InitEvent.regShutdown], false⟩
    else if !env.regSpiOk then
      ⟨1, [InitEvent.regShutdown, InitEvent.regSpi], false⟩
    else
      ⟨0, [InitEvent.regShutdown, InitEvent.regSpi], false⟩

/-! ## Helper lemmas -/

lemma and_fifteen_eq_mod (n : Nat) : n &&& 15 = n % 16 := by
  have h := Nat.and_pow_two_sub_one_eq_mod n 4
  norm_num at h
  exact h

lemma gpio_set_word_eq (val mask : Nat) :
    cp210x_gpio_set_word val mask = (val % 16) * 256 + mask % 16 := by
  have hdec : ∀ v < 16, ∀ m < 16, (v <<< 8) ||| m = v * 256 + m := by decide
  unfold cp210x_gpio_set_word
  rw [show (0xf : Nat) = 15 from rfl, and_fifteen_eq_mod, and_fifteen_eq_mod]
  exact hdec _ (Nat.mod_lt _ (by norm_num)) _ (Nat.mod_lt _ (by norm_num))

/-! ## Claim theorems, first batch -/

/-- Claim C1 (code bug): with target ids 0x10C4:0xEA60, a candidate whose
vendor id matches but whose product id does not is nevertheless not skipped
by the id test of source line 157 — the code proceeds to open it, because the
source test skips a candidate only when BOTH ids mismatch. -/
theorem c1_id_filter_failing_input :
    candTriesOpen 0x10C4 0xEA60 ⟨true, 0x10C4, 0x0001, true, true, []⟩ = true
    ∧ (0x0001 : Nat) ≠ 0xEA60 := by
  decide

/-- Claim C2 counterexample: at val=1, mask=1 the claim's field layout fails —
the value field of the issued transfer is not the packed nibble word
(1 <<< 8) ||| 1 = 0x0101 and the index field is not 0; the code places
0x37E1 in the value field and the packed word in the index field. -/
theorem c2_value_field_counterexample :
    ¬ ((cp210x_gpio_set_transfer 1 1).wValue = ((1 <<< 8) ||| 1 : Nat)
        ∧ (cp210x_gpio_set_transfer 1 1).wIndex = 0) := by
  decide

/-- Claim C2 (corrected): for every value and mask byte, the latch write
issues one host-to-device vendor transfer with request type 0x40, request
code 0xFF, value field 0x37E1 (the write-latch selector), index field equal
to (value-low-nibble << 8) | mask-low-nibble, and no data phase. -/
theorem c2_write_latch_encoding (val mask : Nat) :
    (cp210x_gpio_set_transfer val mask).bmRequestType = 0x40
    ∧ (cp210x_gpio_set_transfer val mask).bRequest = 0xFF
    ∧ (cp210x_gpio_set_transfer val mask).wValue = 0x37E1
    ∧ (cp210x_gpio_set_transfer val mask).wIndex = (val % 16) * 256 + mask % 16
    ∧ (cp210x_gpio_set_transfer val mask).wLength = 0 := by
  exact ⟨rfl, rfl, rfl, gpio_set_word_eq val mask, rfl⟩

/-- Claim C9: for every pair of inputs, bits 4 through 7 and bits 12 through
15 of the packed request word built by the latch write are zero — both inputs
are truncated to their low nibble before packing. -/
theorem c9_word_nibble_bounds (val mask i : Nat)
    (h : (4 ≤ i ∧ i ≤ 7) ∨ (12 ≤ i ∧ i ≤ 15)) :
    Nat.testBit ((cp210x_gpio_set_transfer val mask).wIndex) i = false := by
  have hdec : ∀ v < 16, ∀ m < 16,
      Nat.testBit ((v <<< 8) ||| m) 4 = false ∧ Nat.testBit ((v <<< 8) ||| m) 5 = false
      ∧ Nat.testBit ((v <<< 8) ||| m) 6 = false ∧ Nat.testBit ((v <<< 8) ||| m) 7 = false
      ∧ Nat.testBit ((v <<< 8) ||| m) 12 = false ∧ Nat.testBit ((v <<< 8) ||| m) 13 = false
      ∧ Nat.testBit ((v <<< 8) ||| m) 14 = false ∧ Nat.testBit ((v <<< 8) ||| m) 15 = false := by
    decide
  have hw : (cp210x_gpio_set_transfer val mask).wIndex
      = ((val % 16) <<< 8) ||| (mask % 16) := by
    show cp210x_gpio_set_word val mask = _
    unfold cp210x_gpio_set_word
    rw [show (0xf : Nat) = 15 from rfl, and_fifteen_eq_mod, and_fifteen_eq_mod]
  rw [hw]
  obtain ⟨b4, b5, b6, b7, b12, b13, b14, b15⟩ :=
    hdec (val % 16) (Nat.mod_lt val (by norm_num)) (mask % 16) (Nat.mod_lt mask (by norm_num))
  rcases h with ⟨h1, h2⟩ | ⟨h1, h2⟩ <;> interval_cases i <;> assumption

/-- Claim C9 witness at val=0xAB, mask=0xCD, bit 13. -/
theorem c9_word_nibble_bounds_witness :
    Nat.testBit ((cp210x_gpio_set_transfer 0xAB 0xCD).wIndex) 13 = false :=
  c9_word_nibble_bounds 0xAB 0xCD 13 (by decide)

/-- Claim C3: the pin map is clock=bit0, chip-select=bit1, data-out=bit3;
set clock(1) issues a single write with value nibble 1 and mask nibble 1;
and the combined set(clock, data-out) issues exactly one write whose mask
nibble is 9 (bits 0 and 3) and whose value nibble carries the clock level
at bit0 and the data-out level at bit3. -/
theorem c3_pin_encoding (sck mosi : Nat) (hs : sck ≤ 1) (hm : mosi ≤ 1) :
    DEVELOPERBOX_SPI_SCK = 0 ∧ DEVELOPERBOX_SPI_CS = 1 ∧ DEVELOPERBOX_SPI_MOSI = 3
    ∧ (cp210x_bitbang_set_sck 1).length = 1
    ∧ (∀ t ∈ cp210x_bitbang_set_sck 1, t.valueNibble = 1 ∧ t.maskNibble = 1)
    ∧ (cp210x_bitbang_set_sck_set_mosi sck mosi).length = 1
    ∧ (∀ t ∈ cp210x_bitbang_set_sck_set_mosi sck mosi,
        t.maskNibble = 9 ∧ t.valueNibble = sck + 8 * mosi) := by
  interval_cases sck <;> interval_cases mosi <;>
    exact ⟨rfl, rfl, rfl, rfl, by decide, rfl, by decide⟩

/-- Claim C3 witness at clock level 1 and data-out level 0. -/
theorem c3_pin_encoding_witness :
    (cp210x_bitbang_set_sck_set_mosi 1 0).length = 1 ∧ (1 : Nat) ≤ 1 ∧ (0 : Nat) ≤ 1 :=
  ⟨(c3_pin_encoding 1 0 (by decide) (by decide)).2.2.2.2.2.1, by decide, by decide⟩

/-- Claim C6: the latch read returns 0 on transport failure and the received
byte on success; get data-in() is true iff bit2 of the successful read is
set, and false on a read failure. -/
theorem c6_latch_read_fallback (b : Nat) :
    cp210x_gpio_get none = 0
    ∧ cp210x_gpio_get (some b) = b % 256
    ∧ cp210x_bitbang_get_miso none = false
    ∧ cp210x_bitbang_get_miso (some b) = Nat.testBit (cp210x_gpio_get (some b)) 2 := by
  refine ⟨rfl, rfl, rfl, ?_⟩
  show (cp210x_gpio_get (some b) &&& (1 <<< DEVELOPERBOX_SPI_MISO) != 0)
      = Nat.testBit (cp210x_gpio_get (some b)) 2
  rw [show ((1 : Nat) <<< DEVELOPERBOX_SPI_MISO) = 2 ^ 2 from rfl, Nat.and_two_pow]
  cases htb : Nat.testBit (cp210x_gpio_get (some b)) 2 <;> simp [htb]

/-! ## Serial filter: strncmp prefix semantics -/

lemma strncmp_self (s : List Nat) : strncmp s s s.length = 0 := by
  induction s with
  | nil => rfl
  | cons c s ih =>
    show strncmp (c :: s) (c :: s) (s.length + 1) = 0
    simp only [strncmp, List.headD_cons, List.tail_cons, if_pos rfl]
    split <;> simp [ih]

lemma strncmp_eq_zero_iff (f : List Nat) (hf : ∀ c ∈ f, c ≠ 0) (s : List Nat) :
    strncmp f s f.length = 0 ↔ startsWithBytes f s = true := by
  induction f generalizing s with
  | nil => simp [strncmp, startsWithBytes]
  | cons c f ih =>
    have hc : c ≠ 0 := hf c (List.mem_cons_self c f)
    have hf2 : ∀ x ∈ f, x ≠ 0 := fun x hx => hf x (List.mem_cons_of_mem c hx)
    cases s with
    | nil =>
      show strncmp (c :: f) [] (f.length + 1) = 0 ↔ _
      simp only [strncmp, List.headD_cons, List.headD_nil, List.tail_cons, List.tail_nil]
      rw [if_neg hc]
      simp [startsWithBytes, Int.sub_eq_zero, hc]
    | cons d s2 =>
      show strncmp (c :: f) (d :: s2) (f.length + 1) = 0 ↔ _
      simp only [strncmp, List.headD_cons, List.tail_cons]
      by_cases hcd : c = d
      · subst hcd
        rw [if_pos rfl, if_neg hc]
        simp [startsWithBytes, ih hf2]
      · rw [if_neg hcd]
        have hsub : (c : Int) - (d : Int) ≠ 0 := by
          intro hz
          exact hcd (by exact_mod_cast Int.sub_eq_zero.mp hz)
        simp [startsWithBytes, hcd, hsub]

lemma serialCheckPasses_eq (f s : List Nat) (hf : ∀ c ∈ f, c ≠ 0) :
    serialCheckPasses f s = startsWithBytes f s := by
  have h := strncmp_eq_zero_iff f hf s
  unfold serialCheckPasses
  cases hsw : startsWithBytes f s with
  | true => simp [h.mpr hsw]
  | false =>
    have hz : strncmp f s f.length ≠ 0 := fun hz => by simp [h.mp hz] at hsw
    simp [hz]

/-- Claim C4: the serial check passes iff the device serial starts with the
filter byte-for-byte (for C strings, whose bytes are nonzero); the empty
filter always passes; a filter equal to the serial passes; and with no
filter the serial check is skipped entirely — the acceptance test does not
depend on the serial fields at all. -/
theorem c4_serial_filter (f s : List Nat) (hf : ∀ c ∈ f, c ≠ 0) :
    serialCheckPasses f s = startsWithBytes f s
    ∧ serialCheckPasses [] s = true
    ∧ serialCheckPasses s s = true
    ∧ (∀ (vid pid : Nat) (d : USBDevice) (b : Bool) (s2 : List Nat),
        candAccepts vid pid none { d with serialOk := b, serial := s2 }
          = candAccepts vid pid none d) := by
  refine ⟨serialCheckPasses_eq f s hf, rfl, ?_, ?_⟩
  · unfold serialCheckPasses
    simp [strncmp_self s]
  · intro vid pid d b s2
    rfl

/-- Claim C4 witness at filter "AB" and serial "ABC" (bytes 65 66 67). -/
theorem c4_serial_filter_witness :
    serialCheckPasses [65, 66] [65, 66, 67] = startsWithBytes [65, 66] [65, 66, 67]
    ∧ serialCheckPasses [] [65, 66, 67] = true
    ∧ serialCheckPasses [65, 66, 67] [65, 66, 67] = true :=
  ⟨(c4_serial_filter [65, 66] [65, 66, 67] (by decide)).1,
   (c4_serial_filter [65, 66] [65, 66, 67] (by decide)).2.1,
   (c4_serial_filter [65, 66] [65, 66, 67] (by decide)).2.2.1⟩

/-! ## Device selection: first match, open discipline, list release -/

lemma selectFrom_freeCount (vid pid : Nat) (f : Option (List Nat)) :
    ∀ (devs : List USBDevice) (i : Nat), (selectFrom vid pid f i devs).freeCount = 1 := by
  intro devs
  induction devs with
  | nil => intro i; rfl
  | cons d rest ih =>
    intro i
    unfold selectFrom
    by_cases h1 : candAccepts vid pid f d
    · simp [h1]
    · by_cases h2 : candOpens vid pid d
      · simp [h1, h2, ih]
      · simp [h1, h2, ih]

/-- Claim C7: whenever the enumeration list was successfully acquired, it is
released exactly once before the selection returns, on the success path and
on the not-found path alike. -/
theorem c7_list_freed_once (vid pid : Nat) (f : Option (List Nat)) (devs : List USBDevice) :
    (get_device_by_vid_pid_serial vid pid f (some devs)).freeCount = 1 :=
  selectFrom_freeCount vid pid f devs 0

lemma map_shift (o : Option Nat) (i : Nat) :
    (o.map (fun k => k + 1)).map (fun k => k + i) = o.map (fun k => k + (i + 1)) := by
  cases o with
  | none => rfl
  | some m =>
    show some (m + 1 + i) = some (m + (i + 1))
    congr 1
    omega

lemma selectFrom_spec (vid pid : Nat) (f : Option (List Nat)) :
    ∀ (devs : List USBDevice) (i : Nat),
      (selectFrom vid pid f i devs).handle
          = (firstAccepted vid pid f devs).map (fun k => k + i)
      ∧ ∀ j ∈ (selectFrom vid pid f i devs).opened,
          i ≤ j ∧ ∀ k, (selectFrom vid pid f i devs).handle = some k → j ≤ k := by
  intro devs
  induction devs with
  | nil =>
    intro i
    refine ⟨rfl, ?_⟩
    intro j hj
    simp [selectFrom] at hj
  | cons d rest ih =>
    intro i
    by_cases h1 : candAccepts vid pid f d
    · refine ⟨?_, ?_⟩
      · simp [selectFrom, firstAccepted, h1]
      · intro j hj
        simp only [selectFrom, if_pos h1] at hj
        simp only [List.mem_singleton] at hj
        subst hj
        refine ⟨Nat.le_refl _, ?_⟩
        intro k hk
        simp only [selectFrom, if_pos h1, Option.some.injEq] at hk
        omega
    · by_cases h2 : candOpens vid pid d
      · obtain ⟨ihh, iho⟩ := ih (i + 1)
        have hfa : firstAccepted vid pid f (d :: rest)
            = (firstAccepted vid pid f rest).map (fun k => k + 1) := by
          simp [firstAccepted, h1]
        refine ⟨?_, ?_⟩
        · rw [hfa, map_shift]
          simp only [selectFrom, if_neg h1, if_pos h2]
          exact ihh
        · intro j hj
          simp only [selectFrom, if_neg h1, if_pos h2, List.mem_cons] at hj
          rcases hj with hji | hjt
          · subst hji
            refine ⟨Nat.le_refl _, ?_⟩
            intro k hk
            simp only [selectFrom, if_neg h1, if_pos h2] at hk
            rw [ihh] at hk
            cases hfar : firstAccepted vid pid f rest with
            | none => rw [hfar] at hk; cases hk
            | some m =>
              rw [hfar] at hk
              simp at hk
              omega
          · obtain ⟨hij, hk⟩ := iho j hjt
            refine ⟨by omega, ?_⟩
            intro k hks
            simp only [selectFrom, if_neg h1, if_pos h2] at hks
            exact hk k hks
      · obtain ⟨ihh, iho⟩ := ih (i + 1)
        have hfa : firstAccepted vid pid f (d :: rest)
            = (firstAccepted vid pid f rest).map (fun k => k + 1) := by
          simp [firstAccepted, h1]
        refine ⟨?_, ?_⟩
        · rw [hfa, map_shift]
          simp only [selectFrom, if_neg h1, if_neg h2]
          exact ihh
        · intro j hj
          simp only [selectFrom, if_neg h1, if_neg h2] at hj
          obtain ⟨hij, hk⟩ := iho j hj
          refine ⟨by omega, ?_⟩
          intro k hks
          simp only [selectFrom, if_neg h1, if_neg h2] at hks
          exact hk k hks

/-- Claim C5: selection returns the handle of the first candidate in
enumeration order that passes all checks (none when no candidate passes —
the not-found failure), and every device it ever opens has an index no
later than the returned one, so no later matching candidate is opened. -/
theorem c5_first_match (vid pid : Nat) (f : Option (List Nat)) (devs : List USBDevice) :
    (get_device_by_vid_pid_serial vid pid f (some devs)).handle = firstAccepted vid pid f devs
    ∧ ((get_device_by_vid_pid_serial vid pid f (some devs)).opened.all
        (fun j => decide (j ≤ (get_device_by_vid_pid_serial vid pid f (some devs)).handle.getD j)))
        = true := by
  obtain ⟨hh, ho⟩ := selectFrom_spec vid pid f devs 0
  constructor
  · show (selectFrom vid pid f 0 devs).handle = _
    rw [hh]
    cases firstAccepted vid pid f devs with
    | none => rfl
    | some m =>
      show some (m + 0) = some m
      rw [Nat.add_zero]
  · rw [List.all_eq_true]
    intro j hj
    rw [decide_eq_true_eq]
    obtain ⟨h0, hk⟩ := ho j hj
    cases hh2 : (get_device_by_vid_pid_serial vid pid f (some devs)).handle with
    | none => simp
    | some k => simpa using hk k hh2

/-! ## Initialization: teardown and registration ordering -/

lemma handle_isNone_false_of_isSome (env : InitEnv)
    (hs : (get_device_by_vid_pid_serial 0x10C4 0xEA60 env.serialParam env.devices).handle.isSome
        = true) :
    (get_device_by_vid_pid_serial 0x10C4 0xEA60 env.serialParam env.devices).handle.isNone
      = false := by
  cases hcase : (get_device_by_vid_pid_serial 0x10C4 0xEA60 env.serialParam env.devices).handle with
  | none => rw [hcase] at hs; cases hs
  | some k => rfl

/-- Claim C8: when the device lookup finds nothing (and the transport
context was created), initialization returns nonzero, tears the transport
context down, and neither the shutdown hook nor the SPI backend
registration call is ever made; conversely, on a run where a device is
found and the shutdown hook registers, the hook registration precedes the
backend registration attempt. -/
theorem c8_not_found_teardown (env : InitEnv) :
    (env.usbInitOk = true →
      (get_device_by_vid_pid_serial 0x10C4 0xEA60 env.serialParam env.devices).handle = none →
        (developerbox_spi_init env).ret = 1
        ∧ InitEvent.usbExit ∈ (developerbox_spi_init env).events
        ∧ InitEvent.regShutdown ∉ (developerbox_spi_init env).events
        ∧ InitEvent.regSpi ∉ (developerbox_spi_init env).events)
    ∧ (env.usbInitOk = true →
      (get_device_by_vid_pid_serial 0x10C4 0xEA60 env.serialParam env.devices).handle.isSome
          = true →
      env.regShutdownOk = true →
        (developerbox_spi_init env).events = [InitEvent.regShutdown, InitEvent.regSpi]) := by
  constructor
  · intro hu hn
    simp [developerbox_spi_init, devs_developerbox, hu, hn]
  · intro hu hs hr
    have hn := handle_isNone_false_of_isSome env hs
    cases hspi : env.regSpiOk <;>
      simp [developerbox_spi_init, devs_developerbox, hu, hn, hr, hspi]

/-- Claim C8 witness: an empty enumeration gives the not-found branch, and
a single matching device with a working shutdown registry gives the
ordered-registration branch. -/
theorem c8_not_found_teardown_witness :
    ((developerbox_spi_init ⟨none, true, some [], true, true⟩).ret = 1
      ∧ InitEvent.usbExit ∈ (developerbox_spi_init ⟨none, true, some [], true, true⟩).events
      ∧ InitEvent.regShutdown ∉ (developerbox_spi_init ⟨none, true, some [], true, true⟩).events
      ∧ InitEvent.regSpi ∉ (developerbox_spi_init ⟨none, true, some [], true, true⟩).events)
    ∧ (developerbox_spi_init
        ⟨none, true, some [⟨true, 0x10C4, 0xEA60, true, true, []⟩], true, true⟩).events
        = [InitEvent.regShutdown, InitEvent.regSpi] :=
  ⟨(c8_not_found_teardown ⟨none, true, some [], true, true⟩).1 rfl (by decide),
   (c8_not_found_teardown
      ⟨none, true, some [⟨true, 0x10C4, 0xEA60, true, true, []⟩], true, true⟩).2
      rfl (by decide) rfl⟩

/-- Claim C10: when a device was acquired and the shutdown-hook
registration fails, initialization returns failure without closing the
device handle and without tearing down the transport context; by contrast
the device-not-found failure path does tear the transport context down. -/
theorem c10_shutdown_reg_failure (env : InitEnv) :
    (env.usbInitOk = true →
      (get_device_by_vid_pid_serial 0x10C4 0xEA60 env.serialParam env.devices).handle.isSome
          = true →
      env.regShutdownOk = false →
        (developerbox_spi_init env).ret = 1
        ∧ (developerbox_spi_init env).handleClosed = false
        ∧ InitEvent.usbExit ∉ (developerbox_spi_init env).events)
    ∧ (env.usbInitOk = true →
      (get_device_by_vid_pid_serial 0x10C4 0xEA60 env.serialParam env.devices).handle = none →
        InitEvent.usbExit ∈ (developerbox_spi_init env).events) := by
  constructor
  · intro hu hs hr
    have hn := handle_isNone_false_of_isSome env hs
    simp [developerbox_spi_init, devs_developerbox, hu, hn, hr]
  · intro hu hn
    simp [developerbox_spi_init, devs_developerbox, hu, hn]

/-- Claim C10 witness: one matching device, shutdown registration refused. -/
theorem c10_shutdown_reg_failure_witness :
    (developerbox_spi_init
        ⟨none, true, some [⟨true, 0x10C4, 0xEA60, true, true, []⟩], false, true⟩).ret = 1
    ∧ (developerbox_spi_init
        ⟨none, true, some [⟨true, 0x10C4, 0xEA60, true, true, []⟩], false, true⟩).handleClosed
        = false
    ∧ InitEvent.usbExit ∉ (developerbox_spi_init
        ⟨none, true, some [⟨true, 0x10C4, 0xEA60, true, true, []⟩], false, true⟩).events :=
  (c10_shutdown_reg_failure
      ⟨none, true, some [⟨true, 0x10C4, 0xEA60, true, true, []⟩], false, true⟩).1
    rfl (by decide) rfl
